import Mathlib

/-!
Verification of the PR comment reconciler (`src/comment-pr.ts`).

A shallow embedding of the comment-reconciliation logic of the
dependency-review action. The module under verification has two pieces:

* `commentPr` — the policy/context gate, body composition with a size
  fallback, and the update-or-create write wrapped in a catch-all;
* `findCommentByMarker` — marker-based lookup over a paginated comment
  collection with short-circuiting.

The embedding makes every observable action (output export, warnings,
debug lines, page fetches, comment writes) an element of an `Effect`
trace, and models the two fallible remote calls (the paginated read and
the single write) by an `ApiWorld` record carrying either their result
or the value they throw. All definitions are computable so that concrete
traces can be evaluated.
-/

/-- Constant `COMMENT_MARKER` from the source: the sentinel appended to every
comment this system writes, used to find the comment again later. -/
def COMMENT_MARKER : String := "<!-- dependency-review-pr-comment-marker -->"

/-- Constant `MAX_COMMENT_LENGTH` from the source: the remote API comment-size ceiling. -/
def MAX_COMMENT_LENGTH : Nat := 65536

/-- A remote comment: server-assigned numeric `id` and an optional `body`
(the remote API may return comments with no body). -/
structure Comment where
  id : Nat
  body : Option String
deriving DecidableEq, Repr

/-- Executable substring containment, modelling JavaScript
`String.prototype.includes`: `strContains s pat` is `true` iff `pat`
occurs contiguously inside `s`. -/
def strContains (s pat : String) : Bool :=
  (List.range (s.length + 1)).any fun i => pat.data.isPrefixOf (s.data.drop i)

/-- Predicate `comment.body?.includes(marker)` from the source: a comment with an
absent body never matches. -/
def commentMatches (marker : String) (c : Comment) : Bool :=
  match c.body with
  | some b => strContains b marker
  | none => false

/-- Function `findCommentByMarker` from the source, over an explicit page list.
Each loop iteration of the `for await` fetches one page and scans it with
`Array.prototype.find`; on the first comment whose body contains the
marker the function returns that comment's id immediately. The second
component of the result counts the pages actually fetched. -/
def findCommentByMarker (marker : String) : List (List Comment) → Option Nat × Nat
  | [] => (none, 0)
  | page :: rest =>
    match page.find? (commentMatches marker) with
    | some c => (some c.id, 1)
    | none =>
      let r := findCommentByMarker marker rest
      (r.1, r.2 + 1)

/-- The configuration slice `commentPr` reads: `comment_summary_in_pr`,
one of `"always"`, `"on-failure"`, or anything else (meaning never). -/
structure ConfigurationOptions where
  comment_summary_in_pr : String
deriving DecidableEq, Repr

/-- The ambient action context `commentPr` reads: whether
`process.exitCode` already records a failure, and the pull-request number
of `github.context.payload.pull_request` (`none` outside a PR context). -/
structure ActionContext where
  runFailed : Bool
  pullRequestNumber : Option Nat
deriving DecidableEq, Repr

/-- A value thrown by a remote call, classified the way the catch block
classifies it: an octokit `RequestError` (which is an `Error`) carrying a
status and a message, any other `Error` carrying a message, or a thrown
non-`Error` value. -/
inductive Thrown where
  | requestError (status : Nat) (message : String)
  | otherError (message : String)
  | nonError
deriving DecidableEq, Repr

/-- Test `error instanceof RequestError`. -/
def Thrown.isRequestError : Thrown → Bool
  | .requestError _ _ => true
  | _ => false

/-- Test `error instanceof Error` (a `RequestError` is an `Error`). -/
def Thrown.isError : Thrown → Bool
  | .requestError _ _ => true
  | .otherError _ => true
  | .nonError => false

/-- Field `error.status` of a `RequestError` (unused on the other shapes). -/
def Thrown.status : Thrown → Nat
  | .requestError s _ => s
  | _ => 0

/-- Field `error.message` of an `Error` (unused on non-`Error` values). -/
def Thrown.message : Thrown → String
  | .requestError _ m => m
  | .otherError m => m
  | .nonError => ""

/-- One observable action of `commentPr`, in program order. -/
inductive Effect where
  | setOutput (key value : String)
  | warning (message : String)
  | debug (message : String)
  | fetchPage (index : Nat)
  | updateComment (commentId : Nat) (body : String)
  | createComment (issueNumber : Nat) (body : String)
deriving DecidableEq, Repr

def Effect.isSetOutput : Effect → Bool
  | .setOutput _ _ => true
  | _ => false

def Effect.isWarning : Effect → Bool
  | .warning _ => true
  | _ => false

def Effect.isFetch : Effect → Bool
  | .fetchPage _ => true
  | _ => false

def Effect.isUpdate : Effect → Bool
  | .updateComment _ _ => true
  | _ => false

def Effect.isCreate : Effect → Bool
  | .createComment _ _ => true
  | _ => false

/-- A write network call: `updateComment` or `createComment`. -/
def Effect.isWrite (e : Effect) : Bool := e.isUpdate || e.isCreate

/-- Any network call: a page fetch of the paginated read, or a write. -/
def Effect.isNetwork (e : Effect) : Bool := e.isFetch || e.isWrite

/-- The outcome of the remote calls an invocation would perform: the
paginated read either throws or yields its pages, and the single write
call (whichever of update/create is reached) either throws or succeeds. -/
structure ApiWorld where
  listResult : Except Thrown (List (List Comment))
  writeResult : Except Thrown Unit

/-- The warning of the skipped-outside-PR branch. -/
def notInPrWarning : String :=
  "Not in the context of a pull request. Skipping comment creation."

/-- The debug line of the size-fallback branch. -/
def tooBigDebugMsg : String :=
  "The comment was too big for the GitHub API. Falling back on a minimum comment"

/-- The warning of the 403-permission branch of the catch block. -/
def permissionWarning : String :=
  "Unable to write summary to pull-request. Make sure you are giving this workflow the permission pull-requests: write."

/-- The prefix of the catch-block warning that carries the error message. -/
def receivedErrorPrefix : String :=
  "Unable to comment summary to pull-request, received error: "

/-- The warning of the catch block for a thrown non-`Error` value. -/
def unexpectedWarning : String :=
  "Unable to comment summary to pull-request: Unexpected fatal error"

/-- The gate condition of `commentPr`:
`comment_summary_in_pr === 'always' || (comment_summary_in_pr === 'on-failure' && process.exitCode === Failure)`. -/
def policyAllows (config : ConfigurationOptions) (runFailed : Bool) : Bool :=
  config.comment_summary_in_pr == "always" ||
    (config.comment_summary_in_pr == "on-failure" && runFailed)

/-- Lines 45–52 of the source: `commentBody` starts as
`commentContent + "\n\n" + COMMENT_MARKER` and is replaced by
`minComment + "\n\n" + COMMENT_MARKER` when its length reaches
`MAX_COMMENT_LENGTH`. Pure; computed before any network call. -/
def composeCommentBody (commentContent minComment : String) : String :=
  let commentBody := commentContent ++ "\n\n" ++ COMMENT_MARKER
  if commentBody.length ≥ MAX_COMMENT_LENGTH then
    minComment ++ "\n\n" ++ COMMENT_MARKER
  else
    commentBody

/-- JavaScript truthiness of the `number | undefined` returned by
`findCommentByMarker`: `undefined` and `0` are falsy. -/
def truthyId : Option Nat → Bool
  | none => false
  | some n => n != 0

/-- The catch block of `commentPr`: a `RequestError` with status 403 gets
the permission warning; any other `Error` gets a warning carrying the
error message; a non-`Error` thrown value gets the generic warning. -/
def catchWarning (e : Thrown) : String :=
  if e.isRequestError && e.status == 403 then
    permissionWarning
  else if e.isError then
    receivedErrorPrefix ++ e.message
  else
    unexpectedWarning

/-- Function `commentPr` from the source, as a trace of effects. In program order:

1. export `comment-content` = the stringified summary;
2. return if the policy gate fails (silent);
3. return with a warning if not in a pull-request context;
4. compose the body, falling back to the minimum comment (with a debug
   line) when the composed body reaches `MAX_COMMENT_LENGTH`;
5. inside try/catch: run `findCommentByMarker` (one fetch per page
   consumed); if the returned id is truthy call `updateComment`, else
   `createComment`; a value thrown by the read or the write lands in the
   catch block, which emits the classified warning and returns normally.

A read that throws is modelled as throwing before any page is consumed
(`world.listResult = .error e`); the claims below do not depend on how
many pages a failing read managed to fetch first. -/
def commentPr (commentContent minComment : String) (config : ConfigurationOptions)
    (ctx : ActionContext) (world : ApiWorld) : List Effect :=
  let outEffs := [Effect.setOutput "comment-content" commentContent]
  if !policyAllows config ctx.runFailed then
    outEffs
  else
    match ctx.pullRequestNumber with
    | none => outEffs ++ [Effect.warning notInPrWarning]
    | some prNumber =>
      let sizeEffs :=
        if (commentContent ++ "\n\n" ++ COMMENT_MARKER).length ≥ MAX_COMMENT_LENGTH then
          [Effect.debug tooBigDebugMsg]
        else []
      let commentBody := composeCommentBody commentContent minComment
      match world.listResult with
      | .error e => outEffs ++ sizeEffs ++ [Effect.warning (catchWarning e)]
      | .ok pages =>
        let found := findCommentByMarker COMMENT_MARKER pages
        let fetchEffs := (List.range found.2).map Effect.fetchPage
        let writeEff :=
          if truthyId found.1 then
            Effect.updateComment (found.1.getD 0) commentBody
          else
            Effect.createComment prNumber commentBody
        let catchEffs :=
          match world.writeResult with
          | .error e => [Effect.warning (catchWarning e)]
          | .ok _ => []
        outEffs ++ sizeEffs ++ fetchEffs ++ [writeEff] ++ catchEffs

/-- The bodies submitted to the network by a trace, in order: the `body`
argument of each `updateComment` or `createComment` call. -/
def writtenBodies (trace : List Effect) : List String :=
  trace.filterMap fun e =>
    match e with
    | .updateComment _ b => some b
    | .createComment _ b => some b
    | _ => none

/-- The key/value pairs exported through the output side-channel by a
trace, in order. -/
def outputsSet (trace : List Effect) : List (String × String) :=
  trace.filterMap fun e =>
    match e with
    | .setOutput k v => some (k, v)
    | _ => none

theorem countP_map_fetchPage (p : Effect → Bool)
    (hp : ∀ i, p (Effect.fetchPage i) = false) (l : List Nat) :
    (l.map Effect.fetchPage).countP p = 0 := by
  induction l with
  | nil => simp
  | cons a t ih => simp [List.countP_cons, hp, ih]

theorem writtenBodies_append (l₁ l₂ : List Effect) :
    writtenBodies (l₁ ++ l₂) = writtenBodies l₁ ++ writtenBodies l₂ := by
  simp [writtenBodies, List.filterMap_append]

theorem writtenBodies_map_fetchPage (l : List Nat) :
    writtenBodies (l.map Effect.fetchPage) = [] := by
  simp [writtenBodies, List.filterMap_map]

theorem outputsSet_append (l₁ l₂ : List Effect) :
    outputsSet (l₁ ++ l₂) = outputsSet l₁ ++ outputsSet l₂ := by
  simp [outputsSet, List.filterMap_append]

theorem outputsSet_map_fetchPage (l : List Nat) :
    outputsSet (l.map Effect.fetchPage) = [] := by
  simp [outputsSet, List.filterMap_map]

/-- C4: for every paginated comment collection, `findCommentByMarker`
returns the id of the first comment in pagination order (the
concatenation of the pages) whose body contains the marker as a
substring, comments with absent bodies being non-matching; when no
comment of any page matches, it returns `none`. -/
theorem spec_c4 (marker : String) (pages : List (List Comment)) :
    (findCommentByMarker marker pages).1
      = (pages.flatten.find? (commentMatches marker)).map Comment.id := by
  induction pages with
  | nil => simp [findCommentByMarker]
  | cons page rest ih =>
    rw [List.flatten_cons, List.find?_append]
    cases h : page.find? (commentMatches marker) with
    | none => simpa [findCommentByMarker, h] using ih
    | some c => simp [findCommentByMarker, h]

/-- C9: once the page at index `i` contains a comment whose body includes
the marker, `findCommentByMarker` fetches at most the pages up to index
`i`: no later page is ever fetched. -/
theorem spec_c9 (marker : String) (pages : List (List Comment)) (i : Nat)
    (h : i < pages.length)
    (hm : (pages.get ⟨i, h⟩).any (commentMatches marker) = true) :
    (findCommentByMarker marker pages).2 ≤ i + 1 := by
  induction pages generalizing i with
  | nil => exact absurd h (by simp)
  | cons page rest ih =>
    cases i with
    | zero =>
      obtain ⟨c, hc, hpc⟩ := List.any_eq_true.mp (by simpa using hm)
      cases hf : page.find? (commentMatches marker) with
      | none => exact absurd (List.find?_eq_none.mp hf c hc hpc) (fun t => t)
      | some c => simp [findCommentByMarker, hf]
    | succ n =>
      have hn : n < rest.length := by simpa using Nat.lt_of_succ_lt_succ h
      cases hf : page.find? (commentMatches marker) with
      | some c => simp [findCommentByMarker, hf]
      | none =>
        have := ih n hn (by simpa using hm)
        simp [findCommentByMarker, hf]
        omega

/-- Closed witness for the short-circuit bound: a collection where both
pages match, the first at index 0, fetches at most one page. -/
theorem spec_c9_witness :
    (findCommentByMarker "X" [[⟨1, some "X"⟩], [⟨2, some "X"⟩]]).2 ≤ 0 + 1 :=
  spec_c9 "X" [[⟨1, some "X"⟩], [⟨2, some "X"⟩]] 0 (by decide) (by decide)

/-- C1: the policy gate permits a comment attempt exactly when the policy
is `always`, or it is `on-failure` and the run has already failed, and
the invocation is in a pull-request context: over any successful read,
the trace contains a network call iff that condition holds, and whenever
the condition is false no read or write network call appears in the
trace of any world. -/
theorem spec_c1 (content minC : String) (config : ConfigurationOptions)
    (ctx : ActionContext) :
    (∀ pages w, (commentPr content minC config ctx ⟨.ok pages, w⟩).any Effect.isNetwork
        = (policyAllows config ctx.runFailed && ctx.pullRequestNumber.isSome))
    ∧ (∀ world, (policyAllows config ctx.runFailed && ctx.pullRequestNumber.isSome) = false →
        (commentPr content minC config ctx world).any Effect.isNetwork = false) := by
  constructor
  · intro pages w
    cases hr : policyAllows config ctx.runFailed with
    | false => simp [commentPr, hr, Effect.isNetwork, Effect.isWrite,
        Effect.isFetch, Effect.isUpdate, Effect.isCreate, Effect.isSetOutput]
    | true =>
      cases hp : ctx.pullRequestNumber with
      | none => simp [commentPr, hr, hp, Effect.isNetwork, Effect.isWrite,
          Effect.isFetch, Effect.isUpdate, Effect.isCreate]
      | some prn =>
        cases w with
        | error e =>
          simp only [commentPr, hr, hp, Bool.not_true, Bool.false_eq_true,
            if_false, List.any_append, List.any_cons, List.any_nil]
          cases ht : truthyId (findCommentByMarker COMMENT_MARKER pages).1 <;>
            split <;>
              simp [ht, Effect.isNetwork, Effect.isWrite, Effect.isUpdate,
                Effect.isCreate]
        | ok u =>
          simp only [commentPr, hr, hp, Bool.not_true, Bool.false_eq_true,
            if_false, List.any_append, List.any_cons, List.any_nil]
          cases ht : truthyId (findCommentByMarker COMMENT_MARKER pages).1 <;>
            split <;>
              simp [ht, Effect.isNetwork, Effect.isWrite, Effect.isUpdate,
                Effect.isCreate]
  · intro world hfalse
    cases hr : policyAllows config ctx.runFailed with
    | false => simp [commentPr, hr, Effect.isNetwork, Effect.isWrite,
        Effect.isFetch, Effect.isUpdate, Effect.isCreate, Effect.isSetOutput]
    | true =>
      cases hp : ctx.pullRequestNumber with
      | none => simp [commentPr, hr, hp, Effect.isNetwork, Effect.isWrite,
          Effect.isFetch, Effect.isUpdate, Effect.isCreate]
      | some prn => rw [hr, hp] at hfalse; simp at hfalse

/-- Closed witness for C1: with policy `always` in a PR context a network
call happens, and with an unrecognized policy no network call happens. -/
theorem spec_c1_witness :
    ((commentPr "r" "m" ⟨"always"⟩ ⟨false, some 7⟩ ⟨.ok [], .ok ()⟩).any Effect.isNetwork
      = (policyAllows ⟨"always"⟩ false && (some 7 : Option Nat).isSome))
    ∧ (commentPr "r" "m" ⟨"never"⟩ ⟨false, some 7⟩ ⟨.ok [], .ok ()⟩).any Effect.isNetwork
      = false :=
  ⟨(spec_c1 "r" "m" ⟨"always"⟩ ⟨false, some 7⟩).1 [] (.ok ()),
   (spec_c1 "r" "m" ⟨"never"⟩ ⟨false, some 7⟩).2 ⟨.ok [], .ok ()⟩ (by decide)⟩

/-- Counterexample to C2: with policy `on-failure`, a run that has not
failed, and no pull-request context, the invocation skips with NO warning
at all — the policy check runs first and exits silently, so the claimed
always-emitted context warning does not happen. -/
theorem spec_c2_counterexample :
    (commentPr "r" "m" ⟨"on-failure"⟩ ⟨false, none⟩
      ⟨.ok [], .ok ()⟩).any Effect.isWarning = false := by decide

/-- C2 (amended): the policy check runs first: whenever the policy does
not allow commenting the invocation skips silently — only the output
export happens, no warning and no network call, even outside a
pull-request context; when the policy allows commenting and the
invocation is not in a pull-request context, the trace is the output
export followed by exactly the context warning, again with no network
call. -/
theorem spec_c2 (content minC : String) (config : ConfigurationOptions)
    (failed : Bool) (world : ApiWorld) :
    (policyAllows config failed = false →
      commentPr content minC config ⟨failed, none⟩ world
        = [Effect.setOutput "comment-content" content])
    ∧ (policyAllows config failed = true →
      commentPr content minC config ⟨failed, none⟩ world
        = [Effect.setOutput "comment-content" content,
           Effect.warning notInPrWarning]) := by
  constructor
  · intro h; simp [commentPr, h]
  · intro h; simp [commentPr, h]

/-- Closed witness for C2 (amended): both branches at concrete inputs. -/
theorem spec_c2_witness :
    (commentPr "r" "m" ⟨"on-failure"⟩ ⟨false, none⟩ ⟨.ok [], .ok ()⟩
      = [Effect.setOutput "comment-content" "r"])
    ∧ (commentPr "r" "m" ⟨"always"⟩ ⟨false, none⟩ ⟨.ok [], .ok ()⟩
      = [Effect.setOutput "comment-content" "r", Effect.warning notInPrWarning]) :=
  ⟨(spec_c2 "r" "m" ⟨"on-failure"⟩ false ⟨.ok [], .ok ()⟩).1 (by decide),
   (spec_c2 "r" "m" ⟨"always"⟩ false ⟨.ok [], .ok ()⟩).2 (by decide)⟩

/-- C3: on every invocation that reaches the network, the submitted body
is computed purely from the rendered content and the fallback before any
network call: it is `content + "\n\n" + MARKER`, except that if and only
if the length of that string is at least 65536 it is replaced by
`minComment + "\n\n" + MARKER`; exactly that body is submitted by the
single write of the trace, whatever the pages and the write outcome. -/
theorem spec_c3 (content minC : String) (config : ConfigurationOptions)
    (failed : Bool) (pr : Nat) (pages : List (List Comment))
    (w : Except Thrown Unit) (hgate : policyAllows config failed = true) :
    writtenBodies (commentPr content minC config ⟨failed, some pr⟩ ⟨.ok pages, w⟩)
      = [if (content ++ "\n\n" ++ COMMENT_MARKER).length ≥ 65536 then
           minC ++ "\n\n" ++ COMMENT_MARKER
         else content ++ "\n\n" ++ COMMENT_MARKER] := by
  simp only [commentPr, hgate, Bool.not_true, Bool.false_eq_true, if_false,
    writtenBodies_append, writtenBodies_map_fetchPage]
  rw [show (65536 : Nat) = MAX_COMMENT_LENGTH from rfl]
  cases w with
  | error e =>
    split <;> split <;>
      simp_all [writtenBodies, composeCommentBody, MAX_COMMENT_LENGTH]
  | ok u =>
    split <;> split <;>
      simp_all [writtenBodies, composeCommentBody, MAX_COMMENT_LENGTH]

/-- Closed witness for C3 at a short body: the composed body is submitted
unchanged. -/
theorem spec_c3_witness :
    writtenBodies (commentPr "r" "m" ⟨"always"⟩ ⟨false, some 7⟩ ⟨.ok [], .ok ()⟩)
      = [if ("r" ++ "\n\n" ++ COMMENT_MARKER).length ≥ 65536 then
           "m" ++ "\n\n" ++ COMMENT_MARKER
         else "r" ++ "\n\n" ++ COMMENT_MARKER] :=
  spec_c3 "r" "m" ⟨"always"⟩ false 7 [] (.ok ()) (by decide)

theorem commentPr_policyFail (content minC : String) (config : ConfigurationOptions)
    (failed : Bool) (prn : Option Nat) (world : ApiWorld)
    (hgate : policyAllows config failed = false) :
    commentPr content minC config ⟨failed, prn⟩ world
      = [Effect.setOutput "comment-content" content] := by
  simp [commentPr, hgate]

theorem commentPr_noPr (content minC : String) (config : ConfigurationOptions)
    (failed : Bool) (world : ApiWorld)
    (hgate : policyAllows config failed = true) :
    commentPr content minC config ⟨failed, none⟩ world
      = [Effect.setOutput "comment-content" content, Effect.warning notInPrWarning] := by
  simp [commentPr, hgate]

theorem commentPr_readError (content minC : String) (config : ConfigurationOptions)
    (failed : Bool) (pr : Nat) (e : Thrown) (wr : Except Thrown Unit)
    (hgate : policyAllows config failed = true) :
    commentPr content minC config ⟨failed, some pr⟩ ⟨.error e, wr⟩
      = [Effect.setOutput "comment-content" content]
        ++ (if (content ++ "\n\n" ++ COMMENT_MARKER).length ≥ MAX_COMMENT_LENGTH
            then [Effect.debug tooBigDebugMsg] else [])
        ++ [Effect.warning (catchWarning e)] := by
  simp [commentPr, hgate]

theorem commentPr_okPages (content minC : String) (config : ConfigurationOptions)
    (failed : Bool) (pr : Nat) (pages : List (List Comment)) (wr : Except Thrown Unit)
    (hgate : policyAllows config failed = true) :
    commentPr content minC config ⟨failed, some pr⟩ ⟨.ok pages, wr⟩
      = [Effect.setOutput "comment-content" content]
        ++ (if (content ++ "\n\n" ++ COMMENT_MARKER).length ≥ MAX_COMMENT_LENGTH
            then [Effect.debug tooBigDebugMsg] else [])
        ++ (List.range (findCommentByMarker COMMENT_MARKER pages).2).map Effect.fetchPage
        ++ [if truthyId (findCommentByMarker COMMENT_MARKER pages).1
            then Effect.updateComment ((findCommentByMarker COMMENT_MARKER pages).1.getD 0)
                   (composeCommentBody content minC)
            else Effect.createComment pr (composeCommentBody content minC)]
        ++ (match wr with
            | .error e => [Effect.warning (catchWarning e)]
            | .ok _ => []) := by
  simp [commentPr, hgate]

/-- Counterexample to C5: with an unrecognized policy the gate rejects the
invocation, yet the `comment-content` output IS set — the export happens
before the gating, not after it. -/
theorem spec_c5_counterexample :
    policyAllows ⟨"never"⟩ false = false
    ∧ (commentPr "r" "m" ⟨"never"⟩ ⟨false, none⟩
        ⟨.ok [], .ok ()⟩).countP Effect.isSetOutput = 1 := by decide

/-- C5 (amended): the `comment-content` output is set exactly once per
invocation, unconditionally and as the very first action, before the
policy/context gating is evaluated — it is set even when gating rejects
the invocation. -/
theorem spec_c5 (content minC : String) (config : ConfigurationOptions)
    (ctx : ActionContext) (world : ApiWorld) :
    (commentPr content minC config ctx world).countP Effect.isSetOutput = 1
    ∧ (commentPr content minC config ctx world).head?
        = some (Effect.setOutput "comment-content" content) := by
  obtain ⟨failed, prn⟩ := ctx
  obtain ⟨lr, wr⟩ := world
  cases hr : policyAllows config failed with
  | false => simp [commentPr_policyFail _ _ _ _ _ _ hr, Effect.isSetOutput, List.countP_cons]
  | true =>
    cases prn with
    | none => simp [commentPr_noPr _ _ _ _ _ hr, Effect.isSetOutput, List.countP_cons]
    | some pr =>
      cases lr with
      | error e =>
        rw [commentPr_readError _ _ _ _ _ _ _ hr]
        constructor
        · split <;> simp [List.countP_append, List.countP_cons, Effect.isSetOutput]
        · simp
      | ok pages =>
        rw [commentPr_okPages _ _ _ _ _ _ _ hr]
        constructor
        · cases ht : truthyId (findCommentByMarker COMMENT_MARKER pages).1 <;>
            cases wr <;>
              split <;>
                simp [ht, List.countP_append, List.countP_cons, Effect.isSetOutput,
                  countP_map_fetchPage Effect.isSetOutput (fun i => rfl)]
        · simp

/-- C6: every value exported through the output side-channel is the pair
of the key `comment-content` and the full rendered body — never the
fallback body, whatever the policy, context, pages, size branch or write
outcome, including invocations where the fallback is substituted into the
network body. -/
theorem spec_c6 (content minC : String) (config : ConfigurationOptions)
    (ctx : ActionContext) (world : ApiWorld) :
    outputsSet (commentPr content minC config ctx world)
      = [("comment-content", content)] := by
  obtain ⟨failed, prn⟩ := ctx
  obtain ⟨lr, wr⟩ := world
  cases hr : policyAllows config failed with
  | false => simp [commentPr_policyFail _ _ _ _ _ _ hr, outputsSet]
  | true =>
    cases prn with
    | none => simp [commentPr_noPr _ _ _ _ _ hr, outputsSet]
    | some pr =>
      cases lr with
      | error e =>
        rw [commentPr_readError _ _ _ _ _ _ _ hr]
        split <;> simp [outputsSet]
      | ok pages =>
        rw [commentPr_okPages _ _ _ _ _ _ _ hr]
        cases ht : truthyId (findCommentByMarker COMMENT_MARKER pages).1 <;>
          cases wr <;>
            split <;>
              simp [ht, outputsSet_append, outputsSet_map_fetchPage, outputsSet]

/-- Counterexample to C7: gating passes (policy `always`, in a PR
context) but the marker-lookup read throws; the catch block swallows the
error and NEITHER `updateComment` NOR `createComment` is invoked — zero
write calls despite gating having passed. -/
theorem spec_c7_counterexample :
    policyAllows ⟨"always"⟩ false = true
    ∧ (commentPr "r" "m" ⟨"always"⟩ ⟨false, some 7⟩
        ⟨.error (.otherError "boom"), .ok ()⟩).countP Effect.isWrite = 0 := by decide

/-- C7 (amended): on every invocation where gating passes and the marker
lookup completes without throwing, exactly one of `updateComment` and
`createComment` is invoked — never both and never zero; it is
`updateComment` exactly when the lookup returned a truthy (present and
nonzero) comment id, and `createComment` otherwise. When the lookup
throws, no write is invoked. -/
theorem spec_c7 (content minC : String) (config : ConfigurationOptions)
    (failed : Bool) (pr : Nat) (pages : List (List Comment))
    (w : Except Thrown Unit) (hgate : policyAllows config failed = true) :
    (commentPr content minC config ⟨failed, some pr⟩ ⟨.ok pages, w⟩).countP Effect.isWrite = 1
    ∧ ((commentPr content minC config ⟨failed, some pr⟩ ⟨.ok pages, w⟩).countP Effect.isUpdate,
       (commentPr content minC config ⟨failed, some pr⟩ ⟨.ok pages, w⟩).countP Effect.isCreate)
        = if truthyId (findCommentByMarker COMMENT_MARKER pages).1
          then (1, 0) else (0, 1) := by
  rw [commentPr_okPages _ _ _ _ _ _ _ hgate]
  cases ht : truthyId (findCommentByMarker COMMENT_MARKER pages).1 <;>
    cases w <;>
      constructor <;>
        split <;>
          simp [ht, List.countP_append, List.countP_cons,
            countP_map_fetchPage Effect.isWrite (fun i => rfl),
            countP_map_fetchPage Effect.isUpdate (fun i => rfl),
            countP_map_fetchPage Effect.isCreate (fun i => rfl),
            Effect.isWrite, Effect.isUpdate, Effect.isCreate]

/-- Closed witness for C7 (amended): an existing marked comment with id 5
leads to exactly one write, the update. -/
theorem spec_c7_witness :
    (commentPr "r" "m" ⟨"always"⟩ ⟨false, some 7⟩
        ⟨.ok [[⟨5, some COMMENT_MARKER⟩]], .ok ()⟩).countP Effect.isWrite = 1
    ∧ ((commentPr "r" "m" ⟨"always"⟩ ⟨false, some 7⟩
          ⟨.ok [[⟨5, some COMMENT_MARKER⟩]], .ok ()⟩).countP Effect.isUpdate,
       (commentPr "r" "m" ⟨"always"⟩ ⟨false, some 7⟩
          ⟨.ok [[⟨5, some COMMENT_MARKER⟩]], .ok ()⟩).countP Effect.isCreate)
        = if truthyId (findCommentByMarker COMMENT_MARKER [[⟨5, some COMMENT_MARKER⟩]]).1
          then (1, 0) else (0, 1) :=
  spec_c7 "r" "m" ⟨"always"⟩ false 7 [[⟨5, some COMMENT_MARKER⟩]] (.ok ()) (by decide)

/-- C8: every error thrown by the read or the write terminates in a
classified warning and `commentPr` returns normally (the trace is total):
the trace of a throwing read and the trace of a throwing write both end
with the catch-block warning; that warning is the permission hint for a
`RequestError` with status 403, carries the error message for any other
`Error` (including a `RequestError` with a different status), and is the
generic unexpected-fatal-error text for a thrown non-`Error` value. -/
theorem spec_c8 (content minC : String) (config : ConfigurationOptions)
    (failed : Bool) (pr : Nat) (pages : List (List Comment))
    (e : Thrown) (status : Nat) (msg : String)
    (hgate : policyAllows config failed = true) :
    ((commentPr content minC config ⟨failed, some pr⟩ ⟨.error e, .ok ()⟩).getLast?
        = some (Effect.warning (catchWarning e))
      ∧ (commentPr content minC config ⟨failed, some pr⟩ ⟨.ok pages, .error e⟩).getLast?
        = some (Effect.warning (catchWarning e)))
    ∧ catchWarning (.requestError 403 msg) = permissionWarning
    ∧ (status ≠ 403 → catchWarning (.requestError status msg) = receivedErrorPrefix ++ msg)
    ∧ catchWarning (.otherError msg) = receivedErrorPrefix ++ msg
    ∧ catchWarning .nonError = unexpectedWarning := by
  refine ⟨⟨?_, ?_⟩, ?_, ?_, ?_, ?_⟩
  · rw [commentPr_readError _ _ _ _ _ _ _ hgate]
    exact List.getLast?_concat _
  · rw [commentPr_okPages _ _ _ _ _ _ _ hgate]
    exact List.getLast?_concat _
  · simp [catchWarning, Thrown.isRequestError, Thrown.status]
  · intro h
    simp [catchWarning, Thrown.isRequestError, Thrown.status, Thrown.isError,
      Thrown.message, h]
  · simp [catchWarning, Thrown.isRequestError, Thrown.isError, Thrown.message]
  · simp [catchWarning, Thrown.isRequestError, Thrown.isError]

/-- Closed witness for C8: concrete traces for a throwing read and a
throwing write, plus each branch of the warning classification. -/
theorem spec_c8_witness :
    ((commentPr "r" "m" ⟨"always"⟩ ⟨false, some 7⟩
        ⟨.error (.otherError "boom"), .ok ()⟩).getLast?
        = some (Effect.warning (catchWarning (.otherError "boom")))
      ∧ (commentPr "r" "m" ⟨"always"⟩ ⟨false, some 7⟩
          ⟨.ok [], .error (.otherError "boom")⟩).getLast?
        = some (Effect.warning (catchWarning (.otherError "boom"))))
    ∧ catchWarning (.requestError 403 "boom") = permissionWarning
    ∧ catchWarning (.requestError 404 "boom") = receivedErrorPrefix ++ "boom"
    ∧ catchWarning (.otherError "boom") = receivedErrorPrefix ++ "boom"
    ∧ catchWarning .nonError = unexpectedWarning := by
  have h := spec_c8 "r" "m" ⟨"always"⟩ false 7 [] (.otherError "boom") 404 "boom"
    (by decide)
  exact ⟨h.1, h.2.1, h.2.2.1 (by decide), h.2.2.2.1, h.2.2.2.2⟩

/-- C10: the update-vs-create decision tests JavaScript truthiness of the
id returned by the marker lookup, not its mere presence: when the lookup
returns the numeric id 0 for an existing marked comment, no update is
issued and the create path is taken. -/
theorem spec_c10 (content minC : String) (config : ConfigurationOptions)
    (failed : Bool) (pr : Nat) (pages : List (List Comment))
    (w : Except Thrown Unit) (hgate : policyAllows config failed = true)
    (h0 : (findCommentByMarker COMMENT_MARKER pages).1 = some 0) :
    (commentPr content minC config ⟨failed, some pr⟩ ⟨.ok pages, w⟩).countP Effect.isUpdate = 0
    ∧ (commentPr content minC config ⟨failed, some pr⟩ ⟨.ok pages, w⟩).countP Effect.isCreate = 1 := by
  have ht : truthyId (findCommentByMarker COMMENT_MARKER pages).1 = false := by
    rw [h0]; rfl
  rw [commentPr_okPages _ _ _ _ _ _ _ hgate]
  cases w <;>
    constructor <;>
      split <;>
        simp [ht, List.countP_append, List.countP_cons,
          countP_map_fetchPage Effect.isUpdate (fun i => rfl),
          countP_map_fetchPage Effect.isCreate (fun i => rfl),
          Effect.isUpdate, Effect.isCreate]

/-- Closed witness for C10: a single page whose only comment has id 0 and
carries the marker; the trace creates instead of updating. -/
theorem spec_c10_witness :
    (commentPr "r" "m" ⟨"always"⟩ ⟨false, some 7⟩
        ⟨.ok [[⟨0, some COMMENT_MARKER⟩]], .ok ()⟩).countP Effect.isUpdate = 0
    ∧ (commentPr "r" "m" ⟨"always"⟩ ⟨false, some 7⟩
        ⟨.ok [[⟨0, some COMMENT_MARKER⟩]], .ok ()⟩).countP Effect.isCreate = 1 :=
  spec_c10 "r" "m" ⟨"always"⟩ false 7 [[⟨0, some COMMENT_MARKER⟩]] (.ok ())
    (by decide) (by decide)
